import Mathlib

/-!
# A verification development for the `ipconfig2` crate

Shallow embedding of the crate's core logic: the GUID/byte identifier codec
(`src/utils.rs`), the growable-buffer adapter-table fetcher and the linked-chain
record walker (`src/adapter.rs`), the interface-index resolver and its TTL cache
(`src/ifindex.rs`), and the WFP handle-based enumerators (`src/fwpm.rs`).

Machine integers are modelled as `Nat` with explicit `% 2^w` where overflow
matters; raw OS pointers are modelled as `Option`/lists (a `none` head models a
null pointer); Rust panics and undefined behaviour (dereferencing a null
pointer) are modelled as distinguished fatal outcomes, separate from the
`Result::Err` channel.

The crate declares `pub mod error;` in `lib.rs` but `error.rs` is not among the
sources; the shape of `Error`/`ErrorKind` is reconstructed from its uses
(`ErrorKind::Os(u32)` constructed at every failing OS call, plus the `?`
conversions from string-decoding errors) and from §7 of the specification.
-/

deriving instance DecidableEq for Except

namespace Ipconfig

/-! ## Identifier codec (`src/utils.rs`) -/

/-- Model of `windows_sys::core::GUID`: a 4-byte field `data1`, two 2-byte
fields `data2`/`data3`, and an 8-byte tail `data4` (modelled as eight `Nat`
fields, each a byte). -/
structure GUID where
  data1 : Nat
  data2 : Nat
  data3 : Nat
  d40 : Nat
  d41 : Nat
  d42 : Nat
  d43 : Nat
  d44 : Nat
  d45 : Nat
  d46 : Nat
  d47 : Nat
  deriving DecidableEq

/-- Well-formedness of a `GUID` value: each field fits its machine width. -/
def GUID.WF (g : GUID) : Prop :=
  g.data1 < 2 ^ 32 ∧ g.data2 < 2 ^ 16 ∧ g.data3 < 2 ^ 16 ∧
  g.d40 < 256 ∧ g.d41 < 256 ∧ g.d42 < 256 ∧ g.d43 < 256 ∧
  g.d44 < 256 ∧ g.d45 < 256 ∧ g.d46 < 256 ∧ g.d47 < 256

instance (g : GUID) : Decidable g.WF := by unfold GUID.WF; infer_instance

/-- Model of `[u8; 16]`. -/
structure Bytes16 where
  b0 : Nat
  b1 : Nat
  b2 : Nat
  b3 : Nat
  b4 : Nat
  b5 : Nat
  b6 : Nat
  b7 : Nat
  b8 : Nat
  b9 : Nat
  b10 : Nat
  b11 : Nat
  b12 : Nat
  b13 : Nat
  b14 : Nat
  b15 : Nat
  deriving DecidableEq

/-- Well-formedness of a byte array: every entry is a byte. -/
def Bytes16.WF (b : Bytes16) : Prop :=
  b.b0 < 256 ∧ b.b1 < 256 ∧ b.b2 < 256 ∧ b.b3 < 256 ∧
  b.b4 < 256 ∧ b.b5 < 256 ∧ b.b6 < 256 ∧ b.b7 < 256 ∧
  b.b8 < 256 ∧ b.b9 < 256 ∧ b.b10 < 256 ∧ b.b11 < 256 ∧
  b.b12 < 256 ∧ b.b13 < 256 ∧ b.b14 < 256 ∧ b.b15 < 256

instance (b : Bytes16) : Decidable b.WF := by unfold Bytes16.WF; infer_instance

/-- `guid_to_bytes` from `src/utils.rs`: lays out `data1.to_ne_bytes()`,
`data2.to_ne_bytes()`, `data3.to_ne_bytes()` and the `data4` tail in order.
The crate targets x86-64 Windows, so native byte order is little-endian. -/
def guid_to_bytes (g : GUID) : Bytes16 where
  b0 := g.data1 % 256
  b1 := g.data1 / 256 % 256
  b2 := g.data1 / 65536 % 256
  b3 := g.data1 / 16777216 % 256
  b4 := g.data2 % 256
  b5 := g.data2 / 256 % 256
  b6 := g.data3 % 256
  b7 := g.data3 / 256 % 256
  b8 := g.d40
  b9 := g.d41
  b10 := g.d42
  b11 := g.d43
  b12 := g.d44
  b13 := g.d45
  b14 := g.d46
  b15 := g.d47

/-- `bytes_to_guid` from `src/utils.rs`: rebuilds the three leading fields with
`from_ne_bytes` and copies the 8-byte tail. -/
def bytes_to_guid (b : Bytes16) : GUID where
  data1 := b.b0 + 256 * b.b1 + 65536 * b.b2 + 16777216 * b.b3
  data2 := b.b4 + 256 * b.b5
  data3 := b.b6 + 256 * b.b7
  d40 := b.b8
  d41 := b.b9
  d42 := b.b10
  d43 := b.b11
  d44 := b.b12
  d45 := b.b13
  d46 := b.b14
  d47 := b.b15

/-! ## Buffered table fetcher (`src/adapter.rs`, `get_adapters` retry loop) -/

/-- One simulated OS response to `GetAdaptersAddresses`: the returned status
code and the value the OS wrote through the in/out `SizePointer`. -/
structure OsResp where
  status : Nat
  size : Nat
  deriving DecidableEq

/-- `ERROR_BUFFER_OVERFLOW` (winerror). -/
def ERROR_BUFFER_OVERFLOW : Nat := 111

/-- `ERROR_SUCCESS`. -/
def ERROR_SUCCESS : Nat := 0

/-- Outcome of the fetch loop: how many OS calls were made, the buffer length
at the moment the loop exited, and the final status code. -/
structure FetchResult where
  calls : Nat
  bufSize : Nat
  status : Nat
  deriving DecidableEq

/-- The body of the `while result == ERROR_BUFFER_OVERFLOW` loop of
`get_adapters`: resize the buffer to the current `buf_len`, issue the OS call
(consuming the next scripted response, which overwrites `result` and
`buf_len`), and repeat while the status is the overflow status.  Returns
`none` when the response script is exhausted while the loop still wants to
call the OS again. -/
def fetchGo : List OsResp → Nat → Option FetchResult
  | [], _ => none
  | r :: rest, bufLen =>
    if r.status = ERROR_BUFFER_OVERFLOW then
      (fetchGo rest r.size).map (fun f => { f with calls := f.calls + 1 })
    else
      some { calls := 1, bufSize := bufLen, status := r.status }

/-- The fetch phase of `get_adapters`: `buf_len` starts at the documented
16 KiB hint and `result` starts at `ERROR_BUFFER_OVERFLOW` so the loop body
runs at least once. -/
def fetchAdaptersTable (responses : List OsResp) : Option FetchResult :=
  fetchGo responses 16384

/-- The response script for C3: `k` overflow responses each reporting a
required size, then a success response reporting the size used. -/
def overflowScript (sizes : List Nat) (finalSize : Nat) : List OsResp :=
  sizes.map (fun z => { status := ERROR_BUFFER_OVERFLOW, size := z }) ++
    [{ status := ERROR_SUCCESS, size := finalSize }]

/-- The last element of `sizes`, or `d` when the list is empty: the size of the
last resize performed before the loop's final OS call. -/
def lastSize (d : Nat) : List Nat → Nat
  | [] => d
  | z :: zs => lastSize z zs

/-! ## Failure modes

The `Result::Err` channel of the crate carries `Error { kind: ErrorKind }`
(`error.rs` is declared in `lib.rs` but absent from the sources; `ErrorKind.os`
is reconstructed from its construction sites and `ErrorKind.decode` from the
`?` conversions of string-decoding errors, following §7 of the spec).  Rust
panics and undefined behaviour do not travel through `Result`; they are
modelled as further fatal outcomes so that no branch of the embedding is
silently dropped. -/

/-- Outcome channel of a fallible operation. -/
inductive Failure where
  /-- `ErrorKind::Os(code)`. -/
  | os (code : Nat)
  /-- A string-conversion error propagated via `?` (`Utf8Error` and friends). -/
  | decode
  /-- The `panic!("unexpected OperStatus value: {}", v)` branch of `get_adapter`. -/
  | panicOper (v : Nat)
  /-- The `assert!`/`unwrap` panics inside `socket_address_to_ipaddr`. -/
  | sockPanic
  /-- Undefined behaviour: a read through a null pointer. -/
  | nullDeref
  deriving DecidableEq

/-- A raw C/wide string pointer as the decoder sees it: null, pointing at bytes
that fail text conversion, or pointing at a convertible NUL-terminated string. -/
inductive StrPtr where
  | null
  | invalid
  | valid (s : String)
  deriving DecidableEq

/-- `CStr::from_ptr(p).to_str()?` — undefined behaviour on a null pointer, a
propagated decode error on invalid UTF-8. -/
def readCStr : StrPtr → Except Failure String
  | .null => .error .nullDeref
  | .invalid => .error .decode
  | .valid s => .ok s

/-- `WideCString::from_ptr_str(p).to_string()?` — undefined behaviour on a null
pointer, a propagated decode error on invalid UTF-16. -/
def readWideCStr : StrPtr → Except Failure String
  | .null => .error .nullDeref
  | .invalid => .error .decode
  | .valid s => .ok s

/-! ## Socket-address decoding and the record walker (`src/adapter.rs`) -/

/-- A decoded generic IP address (`std::net::IpAddr`). -/
inductive IpAddr where
  | v4 (a b c d : Nat)
  | v6 (bytes : List Nat)
  deriving DecidableEq

/-- `WinSock::SOCKET_ADDRESS`: the reported byte length `iSockaddrLength` and
the bytes behind `lpSockaddr`. -/
structure RawSockAddr where
  len : Nat
  data : List Nat
  deriving DecidableEq

/-- The byte the decoder sees at offset `i`: `socket2::SockAddr::try_init`
zero-initialises its staging storage and exactly `len` bytes are copied into
it, so offsets at or past `len` read zero. -/
def sockByte (sa : RawSockAddr) (i : Nat) : Nat :=
  if i < sa.len then sa.data.getD i 0 else 0

/-- `AF_INET`. -/
def AF_INET : Nat := 2

/-- `AF_INET6` (Windows). -/
def AF_INET6 : Nat := 23

/-- `socket_address_to_ipaddr` from `src/adapter.rs`: bounds-check the reported
length against the 128-byte `SOCKADDR_STORAGE` staging buffer (`assert!`), copy
the bytes, then interpret the 2-byte family tag; `as_socket()` yields a v4
address from offsets 4–7 of a `sockaddr_in`, a v6 address from offsets 8–23 of
a `sockaddr_in6`, and `None` (then `.unwrap()` panics) for any other family. -/
def socket_address_to_ipaddr (sa : RawSockAddr) : Except Failure IpAddr :=
  if sa.len ≤ 128 then
    let fam := sockByte sa 0 + 256 * sockByte sa 1
    if fam = AF_INET then
      .ok (.v4 (sockByte sa 4) (sockByte sa 5) (sockByte sa 6) (sockByte sa 7))
    else if fam = AF_INET6 then
      .ok (.v6 ((List.range 16).map (fun i => sockByte sa (8 + i))))
    else
      .error .sockPanic
  else
    .error .sockPanic

/-- The generic forward-linked chain walker: the `while !ptr.is_null()` loops
of `src/adapter.rs`.  The chain is modelled as the list of records reachable
from the head before the null link (a null head is the empty list); each
record is decoded in order and any panic aborts the walk. -/
def walkChain {α β : Type} (decode : α → Except Failure β) :
    List α → Except Failure (List β)
  | [] => .ok []
  | r :: rest =>
    match decode r with
    | .error e => .error e
    | .ok b =>
      match walkChain decode rest with
      | .error e => .error e
      | .ok bs => .ok (b :: bs)

/-- One record of the DNS-server / gateway / unicast-address chains: a
`SOCKET_ADDRESS` plus the (implicit) forward link. -/
structure AddrRecord where
  Address : RawSockAddr
  deriving DecidableEq

/-- One record of the `IP_ADAPTER_PREFIX_XP` chain. -/
structure PrefixRecord where
  Address : RawSockAddr
  PrefixLength : Nat
  deriving DecidableEq

/-- `get_dns_servers` from `src/adapter.rs`. -/
def get_dns_servers (chain : List AddrRecord) : Except Failure (List IpAddr) :=
  walkChain (fun r => socket_address_to_ipaddr r.Address) chain

/-- `get_gateways` from `src/adapter.rs`. -/
def get_gateways (chain : List AddrRecord) : Except Failure (List IpAddr) :=
  walkChain (fun r => socket_address_to_ipaddr r.Address) chain

/-- `get_unicast_addresses` from `src/adapter.rs`. -/
def get_unicast_addresses (chain : List AddrRecord) : Except Failure (List IpAddr) :=
  walkChain (fun r => socket_address_to_ipaddr r.Address) chain

/-- `get_prefixes` from `src/adapter.rs`. -/
def get_prefixes (chain : List PrefixRecord) : Except Failure (List (IpAddr × Nat)) :=
  walkChain (fun r => (socket_address_to_ipaddr r.Address).map
    (fun ipaddr => (ipaddr, r.PrefixLength))) chain

/-! ## Adapter decoding (`src/adapter.rs`) -/

/-- `OperStatus` from `src/adapter.rs`. -/
inductive OperStatus where
  | IfOperStatusUp
  | IfOperStatusDown
  | IfOperStatusTesting
  | IfOperStatusUnknown
  | IfOperStatusDormant
  | IfOperStatusNotPresent
  | IfOperStatusLowerLayerDown
  deriving DecidableEq

/-- `IfType` from `src/adapter.rs` (the `__Nonexhaustive` marker variant is
never constructed and is omitted). -/
inductive IfType where
  | Other
  | EthernetCsmacd
  | Iso88025Tokenring
  | Ppp
  | SoftwareLoopback
  | Atm
  | Ieee80211
  | Tunnel
  | Ieee1394
  | Unsupported
  deriving DecidableEq

/-- The `match adapter_addresses.OperStatus` arms of `get_adapter`: `none`
models the `panic!` default arm. -/
def decodeOperStatus (v : Nat) : Option OperStatus :=
  if v = 1 then some .IfOperStatusUp
  else if v = 2 then some .IfOperStatusDown
  else if v = 3 then some .IfOperStatusTesting
  else if v = 4 then some .IfOperStatusUnknown
  else if v = 5 then some .IfOperStatusDormant
  else if v = 6 then some .IfOperStatusNotPresent
  else if v = 7 then some .IfOperStatusLowerLayerDown
  else none

/-- The `match adapter_addresses.IfType` arms of `get_adapter`. -/
def decodeIfType (v : Nat) : IfType :=
  if v = 1 then .Other
  else if v = 6 then .EthernetCsmacd
  else if v = 9 then .Iso88025Tokenring
  else if v = 23 then .Ppp
  else if v = 24 then .SoftwareLoopback
  else if v = 37 then .Atm
  else if v = 71 then .Ieee80211
  else if v = 131 then .Tunnel
  else if v = 144 then .Ieee1394
  else .Unsupported

/-- The owned `Adapter` record. -/
structure Adapter where
  adapter_name : String
  network_guid : Bytes16
  luid : Nat
  ipv4_if_index : Nat
  ip_addresses : List IpAddr
  prefixes : List (IpAddr × Nat)
  gateways : List IpAddr
  dns_servers : List IpAddr
  description : String
  friendly_name : String
  physical_address : Option (List Nat)
  receive_link_speed : Nat
  transmit_link_speed : Nat
  oper_status : OperStatus
  if_type : IfType
  ipv6_if_index : Nat
  ipv4_metric : Nat
  ipv6_metric : Nat
  deriving DecidableEq

/-- The fields of one `IP_ADAPTER_ADDRESSES_LH` record as the decoder reads
them (the four sub-chains are the records reachable from the respective
`First*` head pointers; `FirstPrefixChain` models `FirstPrefix`). -/
structure RawAdapter where
  NetworkGuid : GUID
  Luid : Nat
  IfIndex : Nat
  AdapterName : StrPtr
  FirstDnsServerAddress : List AddrRecord
  FirstGatewayAddress : List AddrRecord
  FirstPrefixChain : List PrefixRecord
  FirstUnicastAddress : List AddrRecord
  ReceiveLinkSpeed : Nat
  TransmitLinkSpeed : Nat
  Ipv4Metric : Nat
  Ipv6Metric : Nat
  OperStatus : Nat
  IfType : Nat
  Ipv6IfIndex : Nat
  Description : StrPtr
  FriendlyName : StrPtr
  PhysicalAddressLength : Nat
  PhysicalAddress : List Nat
  deriving DecidableEq

/-- `get_adapter` from `src/adapter.rs`, with the source's evaluation order. -/
def get_adapter (r : RawAdapter) : Except Failure Adapter := do
  let guid := guid_to_bytes r.NetworkGuid
  let adapter_name ← readCStr r.AdapterName
  let dns_servers ← get_dns_servers r.FirstDnsServerAddress
  let gateways ← get_gateways r.FirstGatewayAddress
  let prefixes ← get_prefixes r.FirstPrefixChain
  let unicast_addresses ← get_unicast_addresses r.FirstUnicastAddress
  let oper_status ← match decodeOperStatus r.OperStatus with
    | some s => Except.ok s
    | none => Except.error (.panicOper r.OperStatus)
  let description ← readWideCStr r.Description
  let friendly_name ← readWideCStr r.FriendlyName
  let physical_address := if r.PhysicalAddressLength = 0 then none
    else some (r.PhysicalAddress.take r.PhysicalAddressLength)
  Except.ok
    { adapter_name := adapter_name
      network_guid := guid
      luid := r.Luid
      ipv4_if_index := r.IfIndex
      ip_addresses := unicast_addresses
      prefixes := prefixes
      gateways := gateways
      dns_servers := dns_servers
      description := description
      friendly_name := friendly_name
      physical_address := physical_address
      receive_link_speed := r.ReceiveLinkSpeed
      transmit_link_speed := r.TransmitLinkSpeed
      oper_status := oper_status
      if_type := decodeIfType r.IfType
      ipv6_if_index := r.Ipv6IfIndex
      ipv4_metric := r.Ipv4Metric
      ipv6_metric := r.Ipv6Metric }

/-- The all-zero `IP_ADAPTER_ADDRESSES_LH` record: what sits at the head of the
zero-initialised 16 KiB buffer when the OS wrote no record into it (every
pointer field is null, every numeric field is zero). -/
def zeroRawAdapter : RawAdapter where
  NetworkGuid := ⟨0, 0, 0, 0, 0, 0, 0, 0, 0, 0, 0⟩
  Luid := 0
  IfIndex := 0
  AdapterName := .null
  FirstDnsServerAddress := []
  FirstGatewayAddress := []
  FirstPrefixChain := []
  FirstUnicastAddress := []
  ReceiveLinkSpeed := 0
  TransmitLinkSpeed := 0
  Ipv4Metric := 0
  Ipv6Metric := 0
  OperStatus := 0
  IfType := 0
  Ipv6IfIndex := 0
  Description := .null
  FriendlyName := .null
  PhysicalAddressLength := 0
  PhysicalAddress := []

/-- The chain the walk of `get_adapters` traverses.  The walk starts at
`adapters_addresses_buffer.as_mut_ptr()`, the start of the `Vec`'s allocation,
which is never null — so when the OS wrote `n ≥ 1` records the walk sees those
`n` records, and when it wrote zero records the walk still reads one record:
the zero bytes of the untouched buffer. -/
def bufferView (osWrites : List RawAdapter) : List RawAdapter :=
  match osWrites with
  | [] => [zeroRawAdapter]
  | l => l

/-- The decode phase of `get_adapters` from `src/adapter.rs`, as a function of
the final fetch status and of the records the OS wrote into the buffer. -/
def getAdaptersDecode (status : Nat) (osWrites : List RawAdapter) :
    Except Failure (List Adapter) :=
  if status ≠ ERROR_SUCCESS then .error (.os status)
  else walkChain get_adapter (bufferView osWrites)

/-! ## Interface index resolver and cache (`src/ifindex.rs`) -/

/-- The iterator chain of `find_adapter_interface_index`: keep the adapters
whose relevant (v4/v6) interface index is non-zero, find the first whose
friendly name or adapter name equals `iface`, and map it to — as written in
the source — its `ipv4_if_index`, for both address families. -/
def scanAdapters (is_ipv6 : Bool) (iface : String) (adapters : List Adapter) :
    Option Nat :=
  ((adapters.filter fun a =>
      if is_ipv6 then a.ipv6_if_index != 0 else a.ipv4_if_index != 0).find?
    fun a => a.friendly_name == iface || a.adapter_name == iface).map
    fun adapter => adapter.ipv4_if_index

/-- The error channel of the resolver (`std::io::Error` by kind).  `osError`
models `io::Error::from_raw_os_error`; `fatal` models a panic or undefined
behaviour escaping `get_adapters`, which `map_err` does not touch. -/
inductive ResolveErr where
  | notFound
  | invalidInput (msg : String)
  | osError (code : Nat)
  | fatal (f : Failure)
  deriving DecidableEq

/-- `find_adapter_interface_index` from `src/ifindex.rs`: run `get_adapters`
(whose `Err` is mapped to `io::ErrorKind::NotFound`) and scan the list. -/
def find_adapter_interface_index (is_ipv6 : Bool) (iface : String)
    (adaptersResult : Except Failure (List Adapter)) :
    Except ResolveErr (Option Nat) :=
  match adaptersResult with
  | .error (.os _) => .error .notFound
  | .error .decode => .error .notFound
  | .error f => .error (.fatal f)
  | .ok adapters => .ok (scanAdapters is_ipv6 iface adapters)

/-- The thread-local `HashMap<String, (u32, Instant)>`, as an association
list keyed by interface name. -/
abbrev IndexCache := List (String × Nat × Nat)

/-- `HashMap::get` on the cache. -/
def cacheLookup (cache : IndexCache) (iface : String) : Option (Nat × Nat) :=
  List.lookup iface cache

/-- `HashMap::insert` on the cache: overwrite any entry for the same name. -/
def cacheInsert (cache : IndexCache) (iface : String) (idx now : Nat) :
    IndexCache :=
  (iface, idx, now) :: cache.filter fun e => e.1 != iface

/-- `INDEX_EXPIRE_DURATION`: 5 seconds. -/
def INDEX_EXPIRE_DURATION : Nat := 5

/-- The observable outcome of one `find_interface_index_cached` call: the
returned `io::Result`, the cache state after the call, and whether any OS
query (adapter scan or `if_nametoindex`) was issued. -/
structure ResolveOut where
  result : Except ResolveErr Nat
  cache : IndexCache
  osCalled : Bool
  deriving DecidableEq

/-- The cache-miss path of `find_interface_index_cached`: scan the adapters,
fall back to `if_nametoindex` (whose result is `nameToIndex`); a zero fallback
is surfaced as `ErrorKind::InvalidInput`; any successful resolution is
inserted into the cache with the current time.  (`CString::new(iface)` also
panics on an interior NUL byte; the names considered here contain none.) -/
def resolveFresh (cache : IndexCache) (now : Nat) (is_ipv6 : Bool)
    (iface : String) (adaptersResult : Except Failure (List Adapter))
    (nameToIndex : Nat) : ResolveOut :=
  match find_adapter_interface_index is_ipv6 iface adaptersResult with
  | .error e => { result := .error e, cache := cache, osCalled := true }
  | .ok (some idx) =>
    { result := .ok idx, cache := cacheInsert cache iface idx now,
      osCalled := true }
  | .ok none =>
    if nameToIndex = 0 then
      { result := .error (.invalidInput "invalid interface name"),
        cache := cache, osCalled := true }
    else
      { result := .ok nameToIndex,
        cache := cacheInsert cache iface nameToIndex now, osCalled := true }

/-- `find_interface_index_cached` from `src/ifindex.rs`: a cache entry younger
than `INDEX_EXPIRE_DURATION` is returned without any OS call; otherwise the
fresh-resolution path runs.  Time is modelled by the `now` parameter (the
source reads `Instant::now()`; the clock is monotone, so the insertion time of
any entry is at most `now`). -/
def find_interface_index_cached (cache : IndexCache) (now : Nat)
    (is_ipv6 : Bool) (iface : String)
    (adaptersResult : Except Failure (List Adapter)) (nameToIndex : Nat) :
    ResolveOut :=
  match cacheLookup cache iface with
  | some (idx, insertTime) =>
    if now - insertTime < INDEX_EXPIRE_DURATION then
      { result := .ok idx, cache := cache, osCalled := false }
    else
      resolveFresh cache now is_ipv6 iface adaptersResult nameToIndex
  | none => resolveFresh cache now is_ipv6 iface adaptersResult nameToIndex

/-! ## Handle-based enumeration (`src/fwpm.rs`) -/

/-- The owned `DisplayData` (name plus optional description). -/
structure DisplayData where
  name : String
  desc : Option String
  deriving DecidableEq

/-- `FWPM_DISPLAY_DATA0` as the conversion reads it: `name` is read through
the embedded pointer unconditionally (`none` models a null pointer), the
description only when non-null. -/
structure RawDisplayData where
  name : Option String
  desc : Option String
  deriving DecidableEq

/-- `From<FWPM_DISPLAY_DATA0> for DisplayData` from `src/fwpm.rs`. -/
def displayDataOfRaw (r : RawDisplayData) : Except Failure DisplayData :=
  match r.name with
  | none => .error .nullDeref
  | some n => .ok { name := n, desc := r.desc }

/-- The owned `SubLayer` record. -/
structure SubLayer where
  sub_layer_key : Bytes16
  display_data : DisplayData
  flags : Nat
  deriving DecidableEq

/-- The fields of one `FWPM_SUBLAYER0` block. -/
structure RawSubLayer0 where
  subLayerKey : GUID
  displayData : RawDisplayData
  flags : Nat
  deriving DecidableEq

/-- `From<FWPM_SUBLAYER0> for SubLayer` from `src/fwpm.rs`. -/
def subLayerOfRaw (r : RawSubLayer0) : Except Failure SubLayer :=
  match displayDataOfRaw r.displayData with
  | .error e => .error e
  | .ok dd =>
    .ok { sub_layer_key := guid_to_bytes r.subLayerKey, display_data := dd,
          flags := r.flags }

/-- An `FWPM_FILTER0` block, kept opaque: `get_filters` returns the copied
bytes undecoded. -/
structure Filter0 where
  block : List Nat
  deriving DecidableEq

/-- The per-entry loop shared by `get_filters` and `get_sub_layers`.  Each
entry of the OS-returned array holds an object pointer (`none` models a null
object pointer).  The source's null test reads `array.add(i).is_null()` — the
address of the i-th array slot, which is never null — so the loop never
breaks there; it then copies `size_of` bytes from the object pointer
unconditionally, which for a null object pointer is undefined behaviour. -/
def enumCollect {α β : Type} (decode : α → Except Failure β) :
    List (Option α) → Except Failure (List β)
  | [] => .ok []
  | none :: _ => .error .nullDeref
  | some r :: rest =>
    match decode r with
    | .error e => .error e
    | .ok b =>
      match enumCollect decode rest with
      | .error e => .error e
      | .ok bs => .ok (b :: bs)

/-- `get_sub_layers` from `src/fwpm.rs`, as a function of the status codes of
`FwpmEngineOpen0`, `FwpmSubLayerCreateEnumHandle0` and `FwpmSubLayerEnum0`,
and of the returned pointer array (`none` models a null array pointer). -/
def get_sub_layers (engineCode enumHandleCode enumCode : Nat)
    (arr : Option (List (Option RawSubLayer0))) : Except Failure (List SubLayer) :=
  if engineCode ≠ 0 then .error (.os engineCode)
  else if enumHandleCode ≠ 0 then .error (.os enumHandleCode)
  else if enumCode ≠ 0 then .error (.os enumCode)
  else match arr with
    | none => .error (.os 0)
    | some entries => enumCollect subLayerOfRaw entries

/-- `get_filters` from `src/fwpm.rs`: the same protocol, but the copied block
is pushed undecoded and the returned array pointer is not null-checked (the
array is modelled directly as its entries). -/
def get_filters (engineCode enumHandleCode enumCode : Nat)
    (arr : List (Option Filter0)) : Except Failure (List Filter0) :=
  if engineCode ≠ 0 then .error (.os engineCode)
  else if enumHandleCode ≠ 0 then .error (.os enumHandleCode)
  else if enumCode ≠ 0 then .error (.os enumCode)
  else enumCollect (fun f => Except.ok f) arr

/-- The "nearby statement" table for C6, written from the spec's wording: the
seven documented operational-status codes and their variants. -/
def specOperStatusMap : List (Nat × OperStatus) :=
  [(1, .IfOperStatusUp), (2, .IfOperStatusDown), (3, .IfOperStatusTesting),
   (4, .IfOperStatusUnknown), (5, .IfOperStatusDormant),
   (6, .IfOperStatusNotPresent), (7, .IfOperStatusLowerLayerDown)]

/-- A concrete adapter with the fields the resolver looks at. -/
def mkAdapter (aname fname : String) (v4 v6 : Nat) : Adapter where
  adapter_name := aname
  network_guid := ⟨0, 0, 0, 0, 0, 0, 0, 0, 0, 0, 0, 0, 0, 0, 0, 0⟩
  luid := 0
  ipv4_if_index := v4
  ip_addresses := []
  prefixes := []
  gateways := []
  dns_servers := []
  description := ""
  friendly_name := fname
  physical_address := none
  receive_link_speed := 0
  transmit_link_speed := 0
  oper_status := .IfOperStatusUp
  if_type := .EthernetCsmacd
  ipv6_if_index := v6
  ipv4_metric := 0
  ipv6_metric := 0

theorem fetchGo_overflowScript (sizes : List Nat) (s : Nat) :
    ∀ bufLen, fetchGo (overflowScript sizes s) bufLen =
      some { calls := sizes.length + 1, bufSize := lastSize bufLen sizes,
             status := ERROR_SUCCESS } := by
  induction sizes with
  | nil =>
    intro bufLen
    simp [overflowScript, fetchGo, lastSize, ERROR_SUCCESS, ERROR_BUFFER_OVERFLOW]
  | cons z zs ih =>
    intro bufLen
    have h : overflowScript (z :: zs) s =
        { status := ERROR_BUFFER_OVERFLOW, size := z } :: overflowScript zs s := by
      simp [overflowScript]
    rw [h]
    simp [fetchGo, ih z, lastSize]

theorem walkChain_ok {α β : Type} (decode : α → Except Failure β) :
    ∀ (chain : List α) (bs : List β),
      chain.map decode = bs.map Except.ok → walkChain decode chain = .ok bs := by
  intro chain
  induction chain with
  | nil =>
    intro bs h
    cases bs with
    | nil => rfl
    | cons b bs => simp at h
  | cons r rest ih =>
    intro bs h
    cases bs with
    | nil => simp at h
    | cons b bs =>
      simp only [List.map_cons, List.cons.injEq] at h
      obtain ⟨h1, h2⟩ := h
      simp [walkChain, h1, ih bs h2]

theorem cacheLookup_cacheInsert (cache : IndexCache) (iface : String)
    (idx now : Nat) :
    cacheLookup (cacheInsert cache iface idx now) iface = some (idx, now) := by
  simp [cacheLookup, cacheInsert, List.lookup]

theorem resolveFresh_osCalled (cache : IndexCache) (now : Nat) (is_ipv6 : Bool)
    (iface : String) (ar : Except Failure (List Adapter)) (n : Nat) :
    (resolveFresh cache now is_ipv6 iface ar n).osCalled = true := by
  unfold resolveFresh
  rcases find_adapter_interface_index is_ipv6 iface ar with e | o
  · rfl
  · rcases o with _ | i
    · by_cases h : n = 0 <;> simp [h]
    · rfl

theorem resolveFresh_inserts (cache : IndexCache) (now : Nat) (is_ipv6 : Bool)
    (iface : String) (ar : Except Failure (List Adapter)) (n j : Nat)
    (h : (resolveFresh cache now is_ipv6 iface ar n).result = .ok j) :
    cacheLookup (resolveFresh cache now is_ipv6 iface ar n).cache iface
      = some (j, now) := by
  unfold resolveFresh at h ⊢
  rcases hfa : find_adapter_interface_index is_ipv6 iface ar with e | o
  · rw [hfa] at h
    simp at h
  · rcases o with _ | i
    · rw [hfa] at h
      by_cases hn : n = 0
      · simp [hn] at h
      · simp [hn] at h ⊢
        rw [← h]
        exact cacheLookup_cacheInsert cache iface n now
    · rw [hfa] at h
      simp at h
      rw [← h]
      exact cacheLookup_cacheInsert cache iface i now

theorem get_adapter_oper_err {r : RawAdapter}
    (hdec : decodeOperStatus r.OperStatus = none) :
    ∃ e, get_adapter r = .error e := by
  unfold get_adapter
  simp only [bind, Except.bind, hdec]
  cases readCStr r.AdapterName <;> simp
  cases get_dns_servers r.FirstDnsServerAddress <;> simp
  cases get_gateways r.FirstGatewayAddress <;> simp
  cases get_prefixes r.FirstPrefixChain <;> simp
  cases get_unicast_addresses r.FirstUnicastAddress <;> simp

/-- Claim C1 (evaluation at the failing input): with `is_ipv6 = true` and an
adapter whose friendly name matches, whose IPv6 interface index is 5 and whose
IPv4 interface index is 7, the adapter scan—and hence the cached resolver on a
cache miss—returns 7, the IPv4 index, not the relevant IPv6 index 5: the
`.map` at the end of `find_adapter_interface_index` reads `ipv4_if_index` for
both address families. -/
theorem scan_ipv6_returns_ipv4_index :
    scanAdapters true "eth0" [mkAdapter "if0" "eth0" 7 5] = some 7 ∧
    (mkAdapter "if0" "eth0" 7 5).ipv6_if_index = 5 ∧
    (mkAdapter "if0" "eth0" 7 5).ipv4_if_index = 7 ∧
    (find_interface_index_cached [] 0 true "eth0"
        (.ok [mkAdapter "if0" "eth0" 7 5]) 9).result = .ok 7 := by
  refine ⟨by decide, rfl, rfl, by decide⟩

/-- Claim C2 (evaluation at the failing input): when the table query succeeds
(`ERROR_SUCCESS`) having written zero adapter records, `get_adapters` does not
return an empty list: the walk starts at the non-null buffer pointer, reads
the all-zero record, and dereferences its null `AdapterName` pointer. -/
theorem get_adapters_empty_table_fatal :
    getAdaptersDecode ERROR_SUCCESS [] = .error .nullDeref := rfl

/-- Claim C3: for a script of `k` buffer-overflow responses (each reporting a
required size) followed by a success response whose reported size fits the
buffer, the fetch loop of `get_adapters` terminates, issues exactly `k + 1` OS
calls, and exits with a buffer at least as large as the final reported size;
the initial buffer length is 16384 bytes (16 KiB). -/
theorem fetch_retry_termination (sizes : List Nat) (s : Nat)
    (hfit : s ≤ lastSize 16384 sizes) :
    ∃ f, fetchAdaptersTable (overflowScript sizes s) = some f ∧
      f.calls = sizes.length + 1 ∧ f.status = ERROR_SUCCESS ∧
      s ≤ f.bufSize ∧ f.bufSize = lastSize 16384 sizes :=
  ⟨_, fetchGo_overflowScript sizes s 16384, rfl, rfl, hfit, rfl⟩

theorem fetch_retry_termination_witness :
    18000 ≤ lastSize 16384 [20000] ∧
    ∃ f, fetchAdaptersTable (overflowScript [20000] 18000) = some f ∧
      f.calls = 2 ∧ f.status = ERROR_SUCCESS ∧ 18000 ≤ f.bufSize ∧
      f.bufSize = lastSize 16384 [20000] :=
  ⟨by decide, fetch_retry_termination [20000] 18000 (by decide)⟩

/-- Claim C4: the identifier codec is a bijection between 16-byte values and
the OS-native `GUID` representation: `guid_to_bytes` and `bytes_to_guid` are
mutually inverse total functions on well-formed (in-range) values. -/
theorem guid_codec_bijection :
    (∀ b : Bytes16, b.WF → guid_to_bytes (bytes_to_guid b) = b) ∧
    (∀ g : GUID, g.WF → bytes_to_guid (guid_to_bytes g) = g) := by
  constructor
  · intro b hb
    cases b
    simp only [Bytes16.WF] at hb
    simp [guid_to_bytes, bytes_to_guid, Bytes16.mk.injEq]
    omega
  · intro g hg
    cases g
    simp only [GUID.WF] at hg
    simp [guid_to_bytes, bytes_to_guid, GUID.mk.injEq]
    omega

theorem guid_codec_bijection_witness :
    Bytes16.WF ⟨0, 1, 2, 3, 4, 5, 6, 7, 8, 9, 10, 11, 12, 13, 14, 15⟩ ∧
    guid_to_bytes (bytes_to_guid ⟨0, 1, 2, 3, 4, 5, 6, 7, 8, 9, 10, 11, 12, 13, 14, 15⟩)
      = ⟨0, 1, 2, 3, 4, 5, 6, 7, 8, 9, 10, 11, 12, 13, 14, 15⟩ ∧
    GUID.WF ⟨305419896, 4660, 22136, 1, 2, 3, 4, 5, 6, 7, 8⟩ ∧
    bytes_to_guid (guid_to_bytes ⟨305419896, 4660, 22136, 1, 2, 3, 4, 5, 6, 7, 8⟩)
      = ⟨305419896, 4660, 22136, 1, 2, 3, 4, 5, 6, 7, 8⟩ :=
  ⟨by decide, guid_codec_bijection.1 _ (by decide), by decide,
   guid_codec_bijection.2 _ (by decide)⟩

/-- Claim C5: the record walker, as instantiated for DNS servers, gateways,
unicast addresses, and prefixes, turns a forward-linked chain of `n` records
whose addresses all decode into exactly `n` owned entries in the original
link order, and a null head (the empty chain) into the empty sequence. -/
theorem chain_walk_totality
    (addrChain : List AddrRecord) (prefChain : List PrefixRecord)
    (ips : List IpAddr) (prefs : List (IpAddr × Nat))
    (haddr : addrChain.map (fun r => socket_address_to_ipaddr r.Address)
      = ips.map Except.ok)
    (hpref : prefChain.map (fun r => (socket_address_to_ipaddr r.Address).map
        (fun ipaddr => (ipaddr, r.PrefixLength))) = prefs.map Except.ok) :
    get_dns_servers addrChain = .ok ips ∧
    get_gateways addrChain = .ok ips ∧
    get_unicast_addresses addrChain = .ok ips ∧
    ips.length = addrChain.length ∧
    get_prefixes prefChain = .ok prefs ∧
    prefs.length = prefChain.length ∧
    get_dns_servers [] = .ok [] ∧
    get_prefixes [] = .ok [] := by
  have h1 := walkChain_ok (fun r : AddrRecord => socket_address_to_ipaddr r.Address)
    addrChain ips haddr
  have h2 := walkChain_ok (fun r : PrefixRecord =>
    (socket_address_to_ipaddr r.Address).map (fun ipaddr => (ipaddr, r.PrefixLength)))
    prefChain prefs hpref
  have l1 : ips.length = addrChain.length := by
    have h := congrArg List.length haddr
    simpa using h.symm
  have l2 : prefs.length = prefChain.length := by
    have h := congrArg List.length hpref
    simpa using h.symm
  exact ⟨h1, h1, h1, l1, h2, l2, rfl, rfl⟩

theorem chain_walk_totality_witness :
    ([({ Address := ⟨16, [2, 0, 0, 0, 192, 168, 1, 1, 0, 0, 0, 0, 0, 0, 0, 0]⟩ }
        : AddrRecord)].map (fun r => socket_address_to_ipaddr r.Address)
      = [IpAddr.v4 192 168 1 1].map Except.ok) ∧
    get_dns_servers
        [{ Address := ⟨16, [2, 0, 0, 0, 192, 168, 1, 1, 0, 0, 0, 0, 0, 0, 0, 0]⟩ }]
      = .ok [IpAddr.v4 192 168 1 1] ∧
    get_prefixes
        [{ Address := ⟨16, [2, 0, 0, 0, 10, 0, 0, 1, 0, 0, 0, 0, 0, 0, 0, 0]⟩,
           PrefixLength := 24 }]
      = .ok [(IpAddr.v4 10 0 0 1, 24)] :=
  ⟨by decide,
   (chain_walk_totality _ [] _ [] (by decide) (by decide)).1,
   (chain_walk_totality [] _ [] _ (by decide) (by decide)).2.2.2.2.1⟩

/-- Claim C6: `get_adapter` maps each operational-status code in `{1..7}` to
the corresponding `OperStatus` variant, and for any other code the decode is
fatal: `decodeOperStatus` yields `none` (the `panic!` arm) and `get_adapter`
never returns an `Adapter` for such a record; under the precondition that the
code lies in `1..7` the fatal arm is unreachable. -/
theorem oper_status_decode_spec :
    (∀ v s, decodeOperStatus v = some s ↔ (v, s) ∈ specOperStatusMap) ∧
    (∀ r : RawAdapter, decodeOperStatus r.OperStatus = none →
      ∃ e, get_adapter r = .error e) := by
  constructor
  · intro v s
    unfold decodeOperStatus specOperStatusMap
    split_ifs with h1 h2 h3 h4 h5 h6 h7
    · subst h1; cases s <;> decide
    · subst h2; cases s <;> decide
    · subst h3; cases s <;> decide
    · subst h4; cases s <;> decide
    · subst h5; cases s <;> decide
    · subst h6; cases s <;> decide
    · subst h7; cases s <;> decide
    · simp [h1, h2, h3, h4, h5, h6, h7, Prod.ext_iff]
  · intro r hdec
    exact get_adapter_oper_err hdec

theorem oper_status_decode_spec_witness :
    decodeOperStatus 1 = some .IfOperStatusUp ∧
    (∃ e, get_adapter zeroRawAdapter = .error e) :=
  ⟨(oper_status_decode_spec.1 1 .IfOperStatusUp).mpr (by decide),
   oper_status_decode_spec.2 zeroRawAdapter rfl⟩

/-- Claim C7: a cache entry inserted at time `T` is returned, without any OS
call, by every lookup of the same name strictly before `T + 5`; a lookup at or
after `T + 5` goes back to the OS; and every successful fresh resolution
(adapter scan or fallback) overwrites the cache entry for that name with the
current time. -/
theorem cache_ttl_resolution (cache : IndexCache) (now T idx : Nat)
    (is_ipv6 : Bool) (iface : String)
    (adaptersResult : Except Failure (List Adapter)) (nameToIndex : Nat) :
    (cacheLookup cache iface = some (idx, T) → T ≤ now →
      now < T + INDEX_EXPIRE_DURATION →
      find_interface_index_cached cache now is_ipv6 iface adaptersResult
          nameToIndex
        = { result := .ok idx, cache := cache, osCalled := false }) ∧
    (cacheLookup cache iface = some (idx, T) →
      T + INDEX_EXPIRE_DURATION ≤ now →
      (find_interface_index_cached cache now is_ipv6 iface adaptersResult
          nameToIndex).osCalled = true) ∧
    (∀ j, (find_interface_index_cached cache now is_ipv6 iface adaptersResult
          nameToIndex).osCalled = true →
      (find_interface_index_cached cache now is_ipv6 iface adaptersResult
          nameToIndex).result = .ok j →
      cacheLookup
          (find_interface_index_cached cache now is_ipv6 iface adaptersResult
            nameToIndex).cache iface
        = some (j, now)) := by
  refine ⟨?_, ?_, ?_⟩
  · intro hl h1 h2
    unfold find_interface_index_cached
    rw [hl]
    have hfresh : now - T < INDEX_EXPIRE_DURATION := by
      unfold INDEX_EXPIRE_DURATION at h2 ⊢
      omega
    simp [hfresh]
  · intro hl h1
    unfold find_interface_index_cached
    rw [hl]
    have hstale : ¬ now - T < INDEX_EXPIRE_DURATION := by
      unfold INDEX_EXPIRE_DURATION at h1 ⊢
      omega
    simp only [hstale, if_false]
    exact resolveFresh_osCalled cache now is_ipv6 iface adaptersResult nameToIndex
  · intro j hcall hres
    unfold find_interface_index_cached at hcall hres ⊢
    rcases hl : cacheLookup cache iface with _ | ⟨i, t⟩
    · rw [hl] at hres
      exact resolveFresh_inserts cache now is_ipv6 iface adaptersResult
        nameToIndex j hres
    · rw [hl] at hcall hres
      by_cases ht : now - t < INDEX_EXPIRE_DURATION
      · simp [ht] at hcall
      · simp [ht] at hres ⊢
        exact resolveFresh_inserts cache now is_ipv6 iface adaptersResult
          nameToIndex j hres

theorem cache_ttl_resolution_witness :
    find_interface_index_cached [("eth0", 7, 10)] 12 false "eth0" (.ok []) 9
      = { result := .ok 7, cache := [("eth0", 7, 10)], osCalled := false } ∧
    (find_interface_index_cached [("eth0", 7, 10)] 20 false "eth0"
        (.ok []) 9).osCalled = true ∧
    cacheLookup
        (find_interface_index_cached [("eth0", 7, 10)] 20 false "eth0"
          (.ok []) 9).cache "eth0"
      = some (9, 20) :=
  ⟨(cache_ttl_resolution [("eth0", 7, 10)] 12 10 7 false "eth0" (.ok []) 9).1
     (by decide) (by decide) (by decide),
   (cache_ttl_resolution [("eth0", 7, 10)] 20 10 7 false "eth0" (.ok []) 9).2.1
     (by decide) (by decide),
   (cache_ttl_resolution [("eth0", 7, 10)] 20 10 7 false "eth0" (.ok []) 9).2.2
     9 (by decide) (by decide)⟩

/-- Claim C8: on a cache miss, when the adapter scan finds no matching adapter
and the `if_nametoindex` fallback returns 0, the resolver returns the
`InvalidInput` error "invalid interface name" — not an OS-error result. -/
theorem unresolvable_name_input_error (cache : IndexCache) (now : Nat)
    (is_ipv6 : Bool) (iface : String) (adapters : List Adapter)
    (hmiss : cacheLookup cache iface = none)
    (hscan : scanAdapters is_ipv6 iface adapters = none) :
    (find_interface_index_cached cache now is_ipv6 iface (.ok adapters) 0).result
      = .error (.invalidInput "invalid interface name") := by
  unfold find_interface_index_cached
  rw [hmiss]
  simp [resolveFresh, find_adapter_interface_index, hscan]

theorem unresolvable_name_input_error_witness :
    (find_interface_index_cached [] 0 false "eth0" (.ok []) 0).result
      = .error (.invalidInput "invalid interface name") :=
  unresolvable_name_input_error [] 0 false "eth0" [] (by decide) (by decide)

/-- Claim C9 (evaluation at the failing input): in `get_sub_layers` and
`get_filters`, the per-entry null test reads the address of the array slot
(`array.add(i)`), which is never null, not the object pointer stored in the
slot; an enumeration that succeeds with one entry holding a null object
pointer therefore reaches the unconditional block copy through that null
pointer (undefined behaviour) instead of skipping the entry. -/
theorem fwpm_null_entry_dereferenced :
    get_sub_layers 0 0 0 (some [none]) = .error .nullDeref ∧
    get_filters 0 0 0 [none] = .error .nullDeref :=
  ⟨rfl, rfl⟩

/-- Claim C10: when `FwpmSubLayerEnum0` reports success (status 0) but the
returned array pointer is null, `get_sub_layers` returns an OS-error carrying
status code 0, and no sub-layer list is produced. -/
theorem sub_layers_null_array_os_zero :
    get_sub_layers 0 0 0 none = .error (.os 0) := rfl

end Ipconfig
